import Mathlib

/-!
Shallow embedding of the `taigajim/image-slider` repository.

The repository contains three near-duplicate implementations of the same
before/after image-comparison widget:

* `V1` — the mouse+touch variant at the top of `src/js/stackSlider.js`
  (lines 1–172): fixed constants, `parseFloat(...) || DEFAULT_PERCENTAGE`
  constructor, `mousemove`/`touchmove` input guard, debounced resize
  handler using `setTimeout`.
* `V2` — the unified pointer-event variant at the bottom of
  `src/js/stackSlider.js` (lines 173–460): options object, hover-follow for
  mouse, drag-only for touch/pen, keyboard support, reduced-motion branch,
  custom `slider:start` / `slider:end` / `slider:change` events.
* `V3` — the variant in `src/unnamed/part_000`: like V2 but without the
  `isMouseOver` flag and without custom events.

JavaScript numbers are modelled as rationals (`ℚ`); `parseFloat` results are
modelled as `Option ℚ` (`none` = `NaN`, i.e. the attribute is missing or not
numeric).  Division by a zero-width rectangle is excluded by well-formedness
hypotheses where it matters, since `ℚ` cannot express the `NaN` that
JavaScript would produce there.
-/

namespace StackSlider

/-- Geometry of `getBoundingClientRect()`: only `left` and `width` are read
by the slider code. -/
structure Rect where
  left : ℚ
  width : ℚ
  deriving DecidableEq, Repr

/-- `pointerType` of a pointer event. -/
inductive PointerType where
  | mouse
  | touch
  | pen
  deriving DecidableEq, Repr

/-- The keys the `handleKeydown` handlers inspect; `other` stands for any
key that matches no `case` of the `switch`. -/
inductive Key where
  | arrowLeft
  | arrowDown
  | arrowRight
  | arrowUp
  | keyHome
  | keyEnd
  | other
  deriving DecidableEq, Repr

namespace V2

/-- `DEFAULT_OPTIONS` of the pointer-event variant (stackSlider.js lines
173–178); `this.options = { ...DEFAULT_OPTIONS, ...options }` makes the
merged record immutable after construction, so it is a parameter of every
handler below rather than a mutable state field. -/
structure Options where
  initialPercentage : ℚ
  easeFactor : ℚ
  threshold : ℚ
  keyboardStep : ℚ
  deriving DecidableEq, Repr

/-- The default option values: 50, 0.4, 0.1, 2. -/
def DEFAULT_OPTIONS : Options :=
  { initialPercentage := 50, easeFactor := 2/5, threshold := 1/10, keyboardStep := 2 }

/-- Mutable per-instance state of the pointer-event variant.
`animationFrame` is the truthiness of the stored `requestAnimationFrame`
handle (`null` vs a pending handle); `dataset` is the container's
`data-percentage` attribute (`none` = absent); `prefersReducedMotion` is
immutable after construction and is passed as a parameter instead. -/
structure State where
  percentage : ℚ
  targetPercentage : ℚ
  isDragging : Bool
  isMouseOver : Bool
  animationFrame : Bool
  cachedRect : Option Rect
  dataset : Option ℚ
  deriving DecidableEq, Repr

/-- Constructor state (stackSlider.js lines 181–198):
`const dataPercentage = parseFloat(this.slider.dataset.percentage);
this.percentage = !isNaN(dataPercentage) ? dataPercentage : this.options.initialPercentage;
this.targetPercentage = this.percentage;` with all flags cleared.
`dataPercentage : Option ℚ` is the `parseFloat` result, `none` for `NaN`. -/
def mkState (o : Options) (dataPercentage : Option ℚ) : State :=
  let p := dataPercentage.getD o.initialPercentage
  { percentage := p
    targetPercentage := p
    isDragging := false
    isMouseOver := false
    animationFrame := false
    cachedRect := none
    dataset := dataPercentage }

/-- Custom events dispatched on the container. -/
inductive Notif where
  | start (p : ℚ)
  | endEvent (p : ℚ)
  | change (p : ℚ)
  deriving DecidableEq, Repr

/-- One invocation of `animate` (stackSlider.js lines 364–395): compute
`diff`, either jump to the target (reduced motion) or ease by
`diff * easeFactor`, mirror the new percentage into the dataset, render,
dispatch `slider:change` when the rendered value moved by more than 0.01,
then either schedule the next frame (`|diff| > threshold`) or snap exactly
to the target and clear the handle. -/
def animateStep (o : Options) (prm : Bool) (s : State) : State × List Notif :=
  let diff := s.targetPercentage - s.percentage
  let previousPercentage := s.percentage
  let p1 := if prm then s.targetPercentage else s.percentage + diff * o.easeFactor
  let s1 : State := { s with percentage := p1, dataset := some p1 }
  let notifs : List Notif :=
    if |p1 - previousPercentage| > 1/100 then [Notif.change p1] else []
  if |diff| > o.threshold then
    ({ s1 with animationFrame := true }, notifs)
  else
    ({ s1 with percentage := s.targetPercentage, animationFrame := false }, notifs)

/-- `handleMove` (stackSlider.js lines 287–316).  `rect` is what
`getBoundingClientRect()` would return at this moment; the code uses the
cached rect when one is set (`this.cachedRect || this.slider.getBoundingClientRect()`). -/
def handleMove (o : Options) (prm : Bool) (s : State)
    (pt : PointerType) (clientX : ℚ) (rect : Rect) : State × List Notif :=
  let isMouse := pt = PointerType.mouse
  let requiresDrag := ¬ isMouse
  if requiresDrag ∧ ¬ s.isDragging then
    (s, [])
  else if isMouse ∧ ¬ s.isMouseOver ∧ ¬ s.isDragging then
    (s, [])
  else
    let r := s.cachedRect.getD rect
    let newTargetPercentage := ((clientX - r.left) / r.width) * 100
    let clampedPercentage := max 0 (min 100 newTargetPercentage)
    if s.targetPercentage = clampedPercentage then
      (s, [])
    else
      let s1 : State := { s with targetPercentage := clampedPercentage }
      if s1.animationFrame then (s1, []) else animateStep o prm s1

/-- `handleStart` (stackSlider.js lines 270–285): set the drag flag, cache
the bounding rect, dispatch `slider:start` carrying `this.percentage`, then
forward the event to `handleMove`. -/
def handleStart (o : Options) (prm : Bool) (s : State)
    (pt : PointerType) (clientX : ℚ) (rect : Rect) : State × List Notif :=
  let s1 : State := { s with isDragging := true, cachedRect := some rect }
  let m := handleMove o prm s1 pt clientX rect
  (m.1, Notif.start s.percentage :: m.2)

/-- `handleEnd` (stackSlider.js lines 318–329): no-op unless dragging;
otherwise clear the drag flag and cached rect and dispatch `slider:end`. -/
def handleEnd (s : State) : State × List Notif :=
  if ¬ s.isDragging then (s, [])
  else
    ({ s with isDragging := false, cachedRect := none }, [Notif.endEvent s.percentage])

/-- `handleKeydown` (stackSlider.js lines 331–362).  Returns the new state,
the dispatched events, and the `handled` flag (whether `preventDefault` was
called). -/
def handleKeydown (o : Options) (prm : Bool) (s : State) (k : Key) :
    State × List Notif × Bool :=
  let newTarget? : Option ℚ :=
    match k with
    | Key.arrowLeft => some (max 0 (s.targetPercentage - o.keyboardStep))
    | Key.arrowDown => some (max 0 (s.targetPercentage - o.keyboardStep))
    | Key.arrowRight => some (min 100 (s.targetPercentage + o.keyboardStep))
    | Key.arrowUp => some (min 100 (s.targetPercentage + o.keyboardStep))
    | Key.keyHome => some 0
    | Key.keyEnd => some 100
    | Key.other => none
  match newTarget? with
  | none => (s, [], false)
  | some t =>
    let s1 : State := { s with targetPercentage := t }
    if s1.animationFrame then (s1, [], true)
    else
      let a := animateStep o prm s1
      (a.1, a.2, true)

/-- The events a page can deliver to one slider instance after
construction.  Pointer events carry the `pointerType`, the `clientX`
coordinate, and the container geometry the browser would report; `frame`
is the display scheduler firing a pending `requestAnimationFrame`
callback; `resize` is the `ResizeObserver` notification (cache
invalidation plus re-render). -/
inductive Event where
  | pointerEnter
  | pointerLeave
  | pointerDown (pt : PointerType) (clientX : ℚ) (rect : Rect)
  | pointerMove (pt : PointerType) (clientX : ℚ) (rect : Rect)
  | pointerUp
  | pointerCancel
  | keydown (k : Key)
  | frame
  | resize
  deriving DecidableEq, Repr

/-- Dispatch of one event to the instance's handlers. -/
def stepEv (o : Options) (prm : Bool) (s : State) : Event → State × List Notif
  | Event.pointerEnter => ({ s with isMouseOver := true }, [])
  | Event.pointerLeave => ({ s with isMouseOver := false }, [])
  | Event.pointerDown pt x r => handleStart o prm s pt x r
  | Event.pointerMove pt x r => handleMove o prm s pt x r
  | Event.pointerUp => handleEnd s
  | Event.pointerCancel => handleEnd s
  | Event.keydown k =>
    let r := handleKeydown o prm s k
    (r.1, r.2.1)
  | Event.frame => if s.animationFrame then animateStep o prm s else (s, [])
  | Event.resize => ({ s with cachedRect := none }, [])

/-- Applying a whole event sequence, discarding the dispatched events. -/
def run (o : Options) (prm : Bool) (s : State) (events : List Event) : State :=
  events.foldl (fun s e => (stepEv o prm s e).1) s

end V2

namespace V1

/-- Constants of the mouse+touch variant (stackSlider.js lines 1–3). -/
def DEFAULT_PERCENTAGE : ℚ := 50

/-- `EASE_FACTOR = 0.4`. -/
def EASE_FACTOR : ℚ := 2/5

/-- `ANIMATION_THRESHOLD = 0.1`. -/
def ANIMATION_THRESHOLD : ℚ := 1/10

/-- Initial percentage of the V1 constructor (stackSlider.js line 10):
`this.percentage = parseFloat(this.slider.dataset.percentage) || DEFAULT_PERCENTAGE;`
— `d : Option ℚ` is the `parseFloat` result (`none` = `NaN`); `||` falls
back to the default on every falsy value, i.e. on `NaN` and also on `0`. -/
def initialPercentage (d : Option ℚ) : ℚ :=
  match d with
  | none => DEFAULT_PERCENTAGE
  | some v => if v = 0 then DEFAULT_PERCENTAGE else v

/-- Mutable state of the V1 variant that the animation and move handlers
touch: rendered and target percentage, the drag flag, the truthiness of the
`requestAnimationFrame` handle, and the `data-percentage` attribute. -/
structure State where
  percentage : ℚ
  targetPercentage : ℚ
  isDragging : Bool
  animationFrame : Bool
  dataset : Option ℚ
  deriving DecidableEq, Repr

/-- V1 constructor state (stackSlider.js lines 10–13). -/
def mkState (d : Option ℚ) : State :=
  let p := initialPercentage d
  { percentage := p
    targetPercentage := p
    isDragging := false
    animationFrame := false
    dataset := d }

/-- One record of a call to `updateSlider` (stackSlider.js lines 36–39):
the percentage that was rendered (divider position / reveal width) and the
value the container's `data-percentage` attribute held at that moment. -/
structure Render where
  rendered : ℚ
  datasetAtRender : Option ℚ
  deriving DecidableEq, Repr

/-- The eased value computed by one pass of `animate`:
`this.percentage += diff * EASE_FACTOR` (stackSlider.js line 98). -/
def eased (s : State) : ℚ :=
  s.percentage + (s.targetPercentage - s.percentage) * EASE_FACTOR

/-- One invocation of V1 `animate` (stackSlider.js lines 94–111), returning
the new state and the list of renders it performed, in order.  The dataset
is written once, before the mid-step render; the snap branch renders again
without touching the dataset. -/
def animateStep (s : State) : State × List Render :=
  let diff := s.targetPercentage - s.percentage
  let p1 := eased s
  let s1 : State := { s with percentage := p1, dataset := some p1 }
  let render1 : Render := { rendered := p1, datasetAtRender := some p1 }
  if |diff| > ANIMATION_THRESHOLD then
    ({ s1 with animationFrame := true }, [render1])
  else
    ({ s1 with percentage := s.targetPercentage, animationFrame := false },
      [render1, { rendered := s.targetPercentage, datasetAtRender := some p1 }])

/-- `e.type` of the events reaching V1's `handleMove` (directly via the
`mousemove`/`touchmove` listeners, or forwarded from `handleStart`). -/
inductive EvType where
  | mousedown
  | mousemove
  | touchstart
  | touchmove
  deriving DecidableEq, Repr

/-- V1 `handleMove` (stackSlider.js lines 72–86).  The only early return is
`if (!this.isDragging && e.type === 'mousemove') return;` — a `touchmove`
with no active drag falls through and is processed.  `clientX` models
`e.touches ? e.touches[0].clientX : e.clientX`; `rect` is the fresh
`getBoundingClientRect()` result. -/
def handleMove (s : State) (ty : EvType) (clientX : ℚ) (rect : Rect) :
    State × List Render :=
  if ¬ s.isDragging ∧ ty = EvType.mousemove then
    (s, [])
  else
    let t0 := ((clientX - rect.left) / rect.width) * 100
    let t1 := max 0 (min 100 t0)
    let s1 : State := { s with targetPercentage := t1 }
    if s1.animationFrame then (s1, []) else animateStep s1

end V1

namespace V3

/-- Mutable state of the `src/unnamed/part_000` variant relevant to the
animation and keyboard claims (its `cachedRect`/drag bookkeeping matches V2
and is not needed here). -/
structure State where
  percentage : ℚ
  targetPercentage : ℚ
  animationFrame : Bool
  dataset : Option ℚ
  deriving DecidableEq, Repr

/-- One invocation of V3 `animate` (part_000 lines 157–180): identical to
V2's except that no custom events are dispatched.  `o : V2.Options` — the
`DEFAULT_OPTIONS` records of the two variants coincide. -/
def animateStep (o : V2.Options) (prm : Bool) (s : State) : State :=
  let diff := s.targetPercentage - s.percentage
  let p1 := if prm then s.targetPercentage else s.percentage + diff * o.easeFactor
  let s1 : State := { s with percentage := p1, dataset := some p1 }
  if |diff| > o.threshold then
    { s1 with animationFrame := true }
  else
    { s1 with percentage := s.targetPercentage, animationFrame := false }

/-- V3 `handleKeydown` (part_000 lines 124–155); returns the new state and
the `handled` flag. -/
def handleKeydown (o : V2.Options) (prm : Bool) (s : State) (k : Key) :
    State × Bool :=
  let newTarget? : Option ℚ :=
    match k with
    | Key.arrowLeft => some (max 0 (s.targetPercentage - o.keyboardStep))
    | Key.arrowDown => some (max 0 (s.targetPercentage - o.keyboardStep))
    | Key.arrowRight => some (min 100 (s.targetPercentage + o.keyboardStep))
    | Key.arrowUp => some (min 100 (s.targetPercentage + o.keyboardStep))
    | Key.keyHome => some 0
    | Key.keyEnd => some 100
    | Key.other => none
  match newTarget? with
  | none => (s, false)
  | some t =>
    let s1 : State := { s with targetPercentage := t }
    if s1.animationFrame then (s1, true) else (animateStep o prm s1, true)

end V3

namespace Load

/-- A browser image element as seen by `loadImages` (stackSlider.js lines
113–129 / 397–413): `complete` and `naturalHeight` are read synchronously;
`futureEvent` is the load/error event that will still fire after
`loadImage` subscribes (`none` when no further event ever fires, e.g. the
load already succeeded or already failed before the subscription). -/
structure ImgElem where
  src : String
  complete : Bool
  naturalHeight : ℕ
  futureEvent : Option Bool   -- some true = load will fire, some false = error will fire
  deriving DecidableEq, Repr

/-- The possible fates of the promise `loadImage` returns. -/
inductive LoadOutcome where
  | resolved
  | rejected (msg : String)
  | pending
  deriving DecidableEq, Repr

/-- `loadImage` (the inner closure of `loadImages`): resolve immediately
when `img.complete && img.naturalHeight !== 0`; otherwise subscribe to the
`load` and `error` events — the promise then settles with whichever event
still fires, and never settles when neither does. -/
def loadImage (img : ImgElem) : LoadOutcome :=
  if img.complete ∧ img.naturalHeight ≠ 0 then
    LoadOutcome.resolved
  else
    match img.futureEvent with
    | some true => LoadOutcome.resolved
    | some false => LoadOutcome.rejected ("Failed to load image: " ++ img.src)
    | none => LoadOutcome.pending

/-- `Promise.all([loadImage(before), loadImage(after)])`: rejects as soon
as either promise rejects, resolves when both resolve, and otherwise stays
pending forever. -/
def loadImages (before after : ImgElem) : LoadOutcome :=
  match loadImage before, loadImage after with
  | LoadOutcome.rejected m, _ => LoadOutcome.rejected m
  | _, LoadOutcome.rejected m => LoadOutcome.rejected m
  | LoadOutcome.resolved, LoadOutcome.resolved => LoadOutcome.resolved
  | _, _ => LoadOutcome.pending

/-- Observable outcome of `init` (stackSlider.js lines 18–28 / 200–211).
`ready`: images loaded, initial render done, input listeners attached.
`errorShown`: the rejection was caught, `displayError` inserted the inline
message and logged the carried error; `attachEvents` never ran, so no input
listeners exist.  `stuck`: the awaited promise never settles, so neither
branch runs — no listeners and no error message.  `init` is a total
function into this type: no case re-throws to the caller. -/
inductive InitResult where
  | ready
  | errorShown (loggedError : String)
  | stuck
  deriving DecidableEq, Repr

/-- The `init` boundary: `try { await this.loadImages(); this.updateSlider();
this.attachEvents(); } catch (error) { this.displayError(error); }`. -/
def init (before after : ImgElem) : InitResult :=
  match loadImages before after with
  | LoadOutcome.resolved => InitResult.ready
  | LoadOutcome.rejected m => InitResult.errorShown m
  | LoadOutcome.pending => InitResult.stuck

end Load

namespace Teardown

/-- Listener bookkeeping of one V1 instance: which of the subscriptions
made by `attachEvents` (stackSlider.js lines 41–63) are currently
registered. -/
structure Listeners where
  mousedownL : Bool
  mousemoveL : Bool
  mouseupL : Bool
  touchstartL : Bool
  touchmoveL : Bool
  touchendL : Bool
  resizeL : Bool
  deriving DecidableEq, Repr

/-- Host-visible state of one V1 instance for the teardown claim: the
registered listeners, the truthiness of the `requestAnimationFrame` handle,
whether the `setTimeout` scheduled by `handleResize`'s debounce (line 60)
is still pending, and a count of DOM writes performed by `updateSlider`. -/
structure Host where
  listeners : Listeners
  animationFrame : Bool
  resizeTimeoutPending : Bool
  domWrites : ℕ
  deriving DecidableEq, Repr

/-- State right after `attachEvents` ran: every listener registered, no
animation pending, no debounce timer pending. -/
def attached : Host :=
  { listeners :=
      { mousedownL := true, mousemoveL := true, mouseupL := true
        touchstartL := true, touchmoveL := true, touchendL := true
        resizeL := true }
    animationFrame := false
    resizeTimeoutPending := false
    domWrites := 0 }

/-- One `resize` event hitting `handleResize` (stackSlider.js lines 58–61):
`clearTimeout(resizeTimeout); resizeTimeout = setTimeout(..., 100);` — the
previous timer (if any) is replaced by a fresh pending one. -/
def handleResize (h : Host) : Host :=
  { h with resizeTimeoutPending := true }

/-- The debounced timer firing after 100 ms: runs
`() => this.updateSlider()`, a DOM mutation, and consumes the timer. -/
def resizeTimeoutFires (h : Host) : Host :=
  if h.resizeTimeoutPending then
    { h with resizeTimeoutPending := false, domWrites := h.domWrites + 1 }
  else h

/-- `destroy` (stackSlider.js lines 139–153): remove the six input
listeners and the resize listener, and `cancelAnimationFrame` when a handle
is set.  Nothing clears `resizeTimeout`. -/
def destroy (h : Host) : Host :=
  { h with
    listeners :=
      { mousedownL := false, mousemoveL := false, mouseupL := false
        touchstartL := false, touchmoveL := false, touchendL := false
        resizeL := false }
    animationFrame := false }

/-- All listeners removed. -/
def noListeners (h : Host) : Prop :=
  h.listeners.mousedownL = false ∧ h.listeners.mousemoveL = false ∧
  h.listeners.mouseupL = false ∧ h.listeners.touchstartL = false ∧
  h.listeners.touchmoveL = false ∧ h.listeners.touchendL = false ∧
  h.listeners.resizeL = false

end Teardown

/-- The range property of claim C1: both the rendered and the target
percentage lie in the closed interval [0, 100]. -/
def InRange (s : V2.State) : Prop :=
  0 ≤ s.percentage ∧ s.percentage ≤ 100 ∧
  0 ≤ s.targetPercentage ∧ s.targetPercentage ≤ 100

instance (s : V2.State) : Decidable (InRange s) := by
  unfold InRange
  infer_instance

/-! ## Helper lemmas -/

/-- V2 `animate` never modifies `targetPercentage`. -/
theorem V2.animateStep_target_const (o : V2.Options) (prm : Bool) (s : V2.State) :
    (V2.animateStep o prm s).1.targetPercentage = s.targetPercentage := by
  simp only [V2.animateStep]
  split <;> rfl

/-- V3 `animate` never modifies `targetPercentage`. -/
theorem V3.animateStep_target_fixed (o : V2.Options) (prm : Bool) (s : V3.State) :
    (V3.animateStep o prm s).targetPercentage = s.targetPercentage := by
  simp only [V3.animateStep]
  split <;> rfl

/-- V1 `animate` never modifies `targetPercentage`. -/
theorem V1.animateStep_target_stable (s : V1.State) :
    (V1.animateStep s).1.targetPercentage = s.targetPercentage := by
  simp only [V1.animateStep]
  split <;> rfl

/-! ## C4 — constructor initial percentage -/

/-- C4: evaluation of the constructors on a pre-set data attribute.  The V2
and V3 constructors use the data value whenever `parseFloat` succeeded
(`!isNaN(...) ? ... : ...`), including `0`, and initialise
`targetPercentage = percentage`; the V1 constructor
(`parseFloat(...) || DEFAULT_PERCENTAGE`) treats the pre-set value `0` as
falsy and replaces it with 50, contradicting the claim's "including 0". -/
theorem c4_constructor_evaluation :
    V1.initialPercentage (some 0) = 50 ∧
    (V1.mkState (some 0)).percentage ≠ 0 ∧
    (∀ (o : V2.Options) (d : Option ℚ),
      (V2.mkState o d).percentage = d.getD o.initialPercentage ∧
      (V2.mkState o d).targetPercentage = (V2.mkState o d).percentage) ∧
    (V2.mkState V2.DEFAULT_OPTIONS (some 0)).percentage = 0 ∧
    (∀ d : Option ℚ,
      (V1.mkState d).targetPercentage = (V1.mkState d).percentage) := by
  refine ⟨by decide, by decide, fun o d => ⟨rfl, rfl⟩, by decide, fun d => rfl⟩

/-! ## C10 — slider:start payload precedes target update -/

/-- C10: for every state and pointer-down event, the `slider:start`
notification is the first event dispatched by `handleStart` and carries the
percentage from before the event was applied; only afterwards is the
pointer position written to `targetPercentage` (clamped position under the
cached rect, which `handleStart` has just set to the fresh rect). -/
theorem c10_start_payload (o : V2.Options) (prm : Bool) (s : V2.State)
    (pt : PointerType) (clientX : ℚ) (rect : Rect) :
    (V2.handleStart o prm s pt clientX rect).2.head? =
      some (V2.Notif.start s.percentage) ∧
    (V2.handleStart o prm s pt clientX rect).1.targetPercentage =
      max 0 (min 100 (((clientX - rect.left) / rect.width) * 100)) := by
  constructor
  · rfl
  · unfold V2.handleStart V2.handleMove
    simp only [Option.getD_some]
    split
    · simp_all
    · split
      · simp_all
      · split
        · simp_all
        · split
          · rfl
          · rw [V2.animateStep_target_const]

/-! ## C6 — keyboard handling -/

/-- C6: in both keyboard-capable variants, ArrowLeft/ArrowDown set the
target to `max 0 (t - step)`, ArrowRight/ArrowUp to `min 100 (t + step)`,
Home to 0 and End to 100, and each of these keys is marked handled
(`preventDefault`); with the default step 2, target 50 becomes 52 under
ArrowRight, 99 becomes 100, and 1 becomes 0 under ArrowLeft. -/
theorem c6_keyboard (o : V2.Options) (prm : Bool) (s : V2.State) (s3 : V3.State) :
    ((V2.handleKeydown o prm s Key.arrowLeft).1.targetPercentage
        = max 0 (s.targetPercentage - o.keyboardStep)
      ∧ (V2.handleKeydown o prm s Key.arrowDown).1.targetPercentage
        = max 0 (s.targetPercentage - o.keyboardStep)
      ∧ (V2.handleKeydown o prm s Key.arrowRight).1.targetPercentage
        = min 100 (s.targetPercentage + o.keyboardStep)
      ∧ (V2.handleKeydown o prm s Key.arrowUp).1.targetPercentage
        = min 100 (s.targetPercentage + o.keyboardStep)
      ∧ (V2.handleKeydown o prm s Key.keyHome).1.targetPercentage = 0
      ∧ (V2.handleKeydown o prm s Key.keyEnd).1.targetPercentage = 100)
    ∧ ((V2.handleKeydown o prm s Key.arrowLeft).2.2 = true
      ∧ (V2.handleKeydown o prm s Key.arrowDown).2.2 = true
      ∧ (V2.handleKeydown o prm s Key.arrowRight).2.2 = true
      ∧ (V2.handleKeydown o prm s Key.arrowUp).2.2 = true
      ∧ (V2.handleKeydown o prm s Key.keyHome).2.2 = true
      ∧ (V2.handleKeydown o prm s Key.keyEnd).2.2 = true)
    ∧ ((V3.handleKeydown o prm s3 Key.arrowLeft).1.targetPercentage
        = max 0 (s3.targetPercentage - o.keyboardStep)
      ∧ (V3.handleKeydown o prm s3 Key.arrowDown).1.targetPercentage
        = max 0 (s3.targetPercentage - o.keyboardStep)
      ∧ (V3.handleKeydown o prm s3 Key.arrowRight).1.targetPercentage
        = min 100 (s3.targetPercentage + o.keyboardStep)
      ∧ (V3.handleKeydown o prm s3 Key.arrowUp).1.targetPercentage
        = min 100 (s3.targetPercentage + o.keyboardStep)
      ∧ (V3.handleKeydown o prm s3 Key.keyHome).1.targetPercentage = 0
      ∧ (V3.handleKeydown o prm s3 Key.keyEnd).1.targetPercentage = 100
      ∧ (V3.handleKeydown o prm s3 Key.arrowRight).2 = true
      ∧ (V3.handleKeydown o prm s3 Key.arrowLeft).2 = true
      ∧ (V3.handleKeydown o prm s3 Key.keyHome).2 = true
      ∧ (V3.handleKeydown o prm s3 Key.keyEnd).2 = true)
    ∧ ((V2.handleKeydown V2.DEFAULT_OPTIONS false
          { percentage := 50, targetPercentage := 50, isDragging := false,
            isMouseOver := false, animationFrame := false, cachedRect := none,
            dataset := none } Key.arrowRight).1.targetPercentage = 52
      ∧ (V2.handleKeydown V2.DEFAULT_OPTIONS false
          { percentage := 99, targetPercentage := 99, isDragging := false,
            isMouseOver := false, animationFrame := false, cachedRect := none,
            dataset := none } Key.arrowRight).1.targetPercentage = 100
      ∧ (V2.handleKeydown V2.DEFAULT_OPTIONS false
          { percentage := 1, targetPercentage := 1, isDragging := false,
            isMouseOver := false, animationFrame := false, cachedRect := none,
            dataset := none } Key.arrowLeft).1.targetPercentage = 0) := by
  refine ⟨⟨?_, ?_, ?_, ?_, ?_, ?_⟩, ⟨?_, ?_, ?_, ?_, ?_, ?_⟩,
    ⟨?_, ?_, ?_, ?_, ?_, ?_, ?_, ?_, ?_, ?_⟩, ?_, ?_, ?_⟩
  all_goals
    (simp only [V2.handleKeydown, V3.handleKeydown]
     split <;> simp [V2.animateStep_target_const, V3.animateStep_target_fixed] <;>
       norm_num [V2.DEFAULT_OPTIONS])

/-! ## C3 — reduced-motion animation step -/

/-- C3 counterexample: with the motion-reduction preference set, current
far from target (0 vs 100, default options), a single invocation of
`animate` does schedule a further animation frame (`|diff| > threshold`
is tested on the pre-jump difference), contradicting the claim that no
further frame is scheduled. -/
theorem c3_counterexample :
    (V2.animateStep V2.DEFAULT_OPTIONS true
      { percentage := 0, targetPercentage := 100, isDragging := false,
        isMouseOver := false, animationFrame := true, cachedRect := none,
        dataset := none }).1.animationFrame = true := by
  norm_num [V2.animateStep, V2.DEFAULT_OPTIONS]

/-- C3 amended: with the motion-reduction preference set, a single
invocation of `animate` does set `percentage` to `targetPercentage`
immediately; however a further frame is scheduled exactly when the
pre-jump distance `|target - current|` exceeded the threshold, and that
extra frame is a no-op: it leaves the percentage at the target and clears
the handle (given a nonnegative threshold). -/
theorem c3_reduced_motion (o : V2.Options) (s : V2.State)
    (hth : 0 ≤ o.threshold) :
    (V2.animateStep o true s).1.percentage = s.targetPercentage ∧
    ((V2.animateStep o true s).1.animationFrame = true ↔
      |s.targetPercentage - s.percentage| > o.threshold) ∧
    (V2.animateStep o true (V2.animateStep o true s).1).1.percentage
      = s.targetPercentage ∧
    (V2.animateStep o true (V2.animateStep o true s).1).1.animationFrame
      = false := by
  have h2 : ∀ s' : V2.State, s'.percentage = s'.targetPercentage →
      (V2.animateStep o true s').1.percentage = s'.targetPercentage ∧
      (V2.animateStep o true s').1.animationFrame = false := by
    intro s' h
    simp only [V2.animateStep, h, if_true]
    rw [if_neg]
    · exact ⟨rfl, rfl⟩
    · rw [sub_self, abs_zero]
      exact not_lt.mpr hth
  have h1 : (V2.animateStep o true s).1.percentage = s.targetPercentage := by
    simp only [V2.animateStep, if_true]
    split <;> rfl
  have ht := V2.animateStep_target_const o true s
  refine ⟨h1, ?_, ?_, ?_⟩
  · simp only [V2.animateStep, if_true]
    constructor
    · intro h
      by_contra hc
      rw [if_neg hc] at h
      exact Bool.false_ne_true h
    · intro h
      rw [if_pos h]
  · rw [(h2 _ (h1.trans ht.symm)).1, ht]
  · exact (h2 _ (h1.trans ht.symm)).2

/-- C3 witness: the amended statement at the counterexample's input. -/
theorem c3_reduced_motion_witness :
    (0 : ℚ) ≤ V2.DEFAULT_OPTIONS.threshold ∧
    ((V2.animateStep V2.DEFAULT_OPTIONS true
      { percentage := 0, targetPercentage := 100, isDragging := false,
        isMouseOver := false, animationFrame := true, cachedRect := none,
        dataset := none }).1.percentage = 100 ∧
    ((V2.animateStep V2.DEFAULT_OPTIONS true
      { percentage := 0, targetPercentage := 100, isDragging := false,
        isMouseOver := false, animationFrame := true, cachedRect := none,
        dataset := none }).1.animationFrame = true ↔
      |(100 : ℚ) - 0| > V2.DEFAULT_OPTIONS.threshold) ∧
    (V2.animateStep V2.DEFAULT_OPTIONS true
      (V2.animateStep V2.DEFAULT_OPTIONS true
        { percentage := 0, targetPercentage := 100, isDragging := false,
          isMouseOver := false, animationFrame := true, cachedRect := none,
          dataset := none }).1).1.percentage = 100 ∧
    (V2.animateStep V2.DEFAULT_OPTIONS true
      (V2.animateStep V2.DEFAULT_OPTIONS true
        { percentage := 0, targetPercentage := 100, isDragging := false,
          isMouseOver := false, animationFrame := true, cachedRect := none,
          dataset := none }).1).1.animationFrame = false) :=
  ⟨by norm_num [V2.DEFAULT_OPTIONS],
    c3_reduced_motion V2.DEFAULT_OPTIONS _ (by norm_num [V2.DEFAULT_OPTIONS])⟩

/-! ## C5 — touch vs mouse movement policy -/

/-- C5 counterexample: in the V1 (mouse+touch) variant, a `touchmove`
received while no drag is active (isDragging = false) does change
`targetPercentage` (from 50 to 0 here), contradicting the claim that touch
movement without an active drag leaves the target unchanged. -/
theorem c5_counterexample :
    (V1.handleMove
      { percentage := 50, targetPercentage := 50, isDragging := false,
        animationFrame := false, dataset := none }
      V1.EvType.touchmove 0 { left := 0, width := 100 }).1.targetPercentage
      ≠ 50 := by
  simp only [V1.handleMove]
  rw [if_neg (by simp)]
  norm_num [V1.animateStep_target_stable]

/-- C5 amended: the claimed policy is the pointer-event variant's (V2):
touch/pen movement without an active drag leaves the state untouched, and
mouse movement with the pointer over the container sets the target to the
clamped pointer position without any prior down event.  In the legacy
mouse+touch variant (V1) the guard is the reverse: mouse movement without
an active drag is ignored, while touch movement is processed and moves the
target regardless of the drag flag. -/
theorem c5_move_policy :
    (∀ (o : V2.Options) (prm : Bool) (s : V2.State) (pt : PointerType)
        (x : ℚ) (r : Rect), pt ≠ PointerType.mouse → s.isDragging = false →
        (V2.handleMove o prm s pt x r).1 = s) ∧
    (∀ (o : V2.Options) (prm : Bool) (s : V2.State) (x : ℚ) (r : Rect),
        s.isMouseOver = true →
        (V2.handleMove o prm s PointerType.mouse x r).1.targetPercentage =
          max 0 (min 100
            (((x - (s.cachedRect.getD r).left) / (s.cachedRect.getD r).width) * 100))) ∧
    (∀ (s : V1.State) (x : ℚ) (r : Rect), s.isDragging = false →
        (V1.handleMove s V1.EvType.mousemove x r).1 = s) ∧
    (∀ (s : V1.State) (x : ℚ) (r : Rect),
        (V1.handleMove s V1.EvType.touchmove x r).1.targetPercentage =
          max 0 (min 100 (((x - r.left) / r.width) * 100))) := by
  refine ⟨?_, ?_, ?_, ?_⟩
  · intro o prm s pt x r hpt hdrag
    simp only [V2.handleMove]
    rw [if_pos ⟨hpt, by simp [hdrag]⟩]
  · intro o prm s x r hover
    simp only [V2.handleMove]
    rw [if_neg (by simp)]
    rw [if_neg (by simp [hover])]
    split
    · simp_all
    · split
      · rfl
      · rw [V2.animateStep_target_const]
  · intro s x r hdrag
    simp only [V1.handleMove]
    rw [if_pos (by simp [hdrag])]
  · intro s x r
    simp only [V1.handleMove]
    rw [if_neg (by simp)]
    split
    · rfl
    · rw [V1.animateStep_target_stable]

/-- C5 witness: the amended policy at concrete inputs — a touch move with
no drag leaves a V2 state unchanged; a hovering mouse move over a
100-wide container at x = 30 sets the V2 target to 30; a V1 mouse move
with no drag leaves the state unchanged; a V1 touch move at x = 0 sets the
target to 0. -/
theorem c5_move_policy_witness :
    (V2.handleMove V2.DEFAULT_OPTIONS false
      { percentage := 50, targetPercentage := 50, isDragging := false,
        isMouseOver := false, animationFrame := false, cachedRect := none,
        dataset := none } PointerType.touch 10 { left := 0, width := 100 }).1 =
      { percentage := 50, targetPercentage := 50, isDragging := false,
        isMouseOver := false, animationFrame := false, cachedRect := none,
        dataset := none } ∧
    (V2.handleMove V2.DEFAULT_OPTIONS false
      { percentage := 50, targetPercentage := 50, isDragging := false,
        isMouseOver := true, animationFrame := false, cachedRect := none,
        dataset := none } PointerType.mouse 30 { left := 0, width := 100 }).1.targetPercentage
      = 30 ∧
    (V1.handleMove
      { percentage := 50, targetPercentage := 50, isDragging := false,
        animationFrame := false, dataset := none }
      V1.EvType.mousemove 30 { left := 0, width := 100 }).1 =
      { percentage := 50, targetPercentage := 50, isDragging := false,
        animationFrame := false, dataset := none } ∧
    (V1.handleMove
      { percentage := 50, targetPercentage := 50, isDragging := false,
        animationFrame := false, dataset := none }
      V1.EvType.touchmove 0 { left := 0, width := 100 }).1.targetPercentage = 0 := by
  refine ⟨c5_move_policy.1 _ _ _ _ _ _ (by decide) rfl, ?_,
    c5_move_policy.2.2.1 _ _ _ rfl, ?_⟩
  · have h := c5_move_policy.2.1 V2.DEFAULT_OPTIONS false
      { percentage := 50, targetPercentage := 50, isDragging := false,
        isMouseOver := true, animationFrame := false, cachedRect := none,
        dataset := none } 30 { left := 0, width := 100 } rfl
    rw [h]
    norm_num
  · have h := c5_move_policy.2.2.2
      { percentage := 50, targetPercentage := 50, isDragging := false,
        animationFrame := false, dataset := none }
      0 { left := 0, width := 100 }
    rw [h]
    norm_num

/-! ## C7 — teardown -/

/-- C7: evaluation of V1 teardown at the failing input.  After
`attachEvents`, one `resize` event (scheduling the debounced
`updateSlider`), and then `destroy`: every listener is removed, the
animation frame is cancelled, and a second `destroy` is a no-op — but the
pending debounce timer survives `destroy` (nothing calls
`clearTimeout(resizeTimeout)`), and when it fires it still runs
`updateSlider`, a DOM mutation after teardown, contradicting the claim. -/
theorem c7_destroy_evaluation :
    Teardown.noListeners (Teardown.destroy (Teardown.handleResize Teardown.attached)) ∧
    (Teardown.destroy (Teardown.handleResize Teardown.attached)).animationFrame = false ∧
    Teardown.destroy (Teardown.destroy (Teardown.handleResize Teardown.attached)) =
      Teardown.destroy (Teardown.handleResize Teardown.attached) ∧
    (Teardown.destroy (Teardown.handleResize Teardown.attached)).resizeTimeoutPending
      = true ∧
    (Teardown.resizeTimeoutFires
        (Teardown.destroy (Teardown.handleResize Teardown.attached))).domWrites =
      (Teardown.destroy (Teardown.handleResize Teardown.attached)).domWrites + 1 := by
  refine ⟨⟨rfl, rfl, rfl, rfl, rfl, rfl, rfl⟩, rfl, rfl, rfl, rfl⟩

/-! ## C8 — image-load failure handling -/

/-- C8 counterexample: an image that already failed before `loadImage`
subscribes (`complete = true`, `naturalHeight = 0`, and no further
load/error event will fire) leaves initialization pending forever: the
promise returned by `loadImage` never settles, so neither the error
message nor the listeners ever appear — contradicting the claim that an
image-load failure always yields an inserted inline error message. -/
theorem c8_counterexample :
    Load.init
      { src := "before.jpg", complete := true, naturalHeight := 0,
        futureEvent := none }
      { src := "after.jpg", complete := true, naturalHeight := 300,
        futureEvent := none } = Load.InitResult.stuck := by
  rfl

/-- C8 amended: when a failing image signals its failure through the
`error` event after initialization subscribes, `init` (a total function —
nothing is re-thrown to the caller) converts the rejection into the
displayed-error outcome carrying `Failed to load image: <src>` of the
failing image, and never reaches the listener-attaching outcome; this
holds for the before image and, when the before image resolves, for the
after image.  An image that had already failed before subscription
instead leaves `init` in the `stuck` outcome (no listeners, no message)
provided the other image does not itself reject. -/
theorem c8_error_path :
    (∀ b a : Load.ImgElem,
      ¬ (b.complete = true ∧ b.naturalHeight ≠ 0) → b.futureEvent = some false →
      Load.init b a =
        Load.InitResult.errorShown ("Failed to load image: " ++ b.src) ∧
      Load.init b a ≠ Load.InitResult.ready) ∧
    (∀ b a : Load.ImgElem,
      Load.loadImage b = Load.LoadOutcome.resolved →
      ¬ (a.complete = true ∧ a.naturalHeight ≠ 0) → a.futureEvent = some false →
      Load.init b a =
        Load.InitResult.errorShown ("Failed to load image: " ++ a.src) ∧
      Load.init b a ≠ Load.InitResult.ready) ∧
    (∀ b a : Load.ImgElem,
      b.complete = true → b.naturalHeight = 0 → b.futureEvent = none →
      (∀ m, Load.loadImage a ≠ Load.LoadOutcome.rejected m) →
      Load.init b a = Load.InitResult.stuck) := by
  refine ⟨?_, ?_, ?_⟩
  · intro b a hb he
    have h1 : Load.loadImage b =
        Load.LoadOutcome.rejected ("Failed to load image: " ++ b.src) := by
      simp only [Load.loadImage]
      rw [if_neg hb, he]
    cases ha : Load.loadImage a <;>
      simp [Load.init, Load.loadImages, h1, ha]
  · intro b a hb ha he
    have h1 : Load.loadImage a =
        Load.LoadOutcome.rejected ("Failed to load image: " ++ a.src) := by
      simp only [Load.loadImage]
      rw [if_neg ha, he]
    simp [Load.init, Load.loadImages, hb, h1]
  · intro b a hc hn he ha
    have h1 : Load.loadImage b = Load.LoadOutcome.pending := by
      simp only [Load.loadImage]
      rw [if_neg (by simp [hn]), he]
    cases hav : Load.loadImage a with
    | resolved => simp [Load.init, Load.loadImages, h1, hav]
    | rejected m => exact absurd hav (ha m)
    | pending => simp [Load.init, Load.loadImages, h1, hav]

/-- C8 witness: the amended error path at concrete images — the before
image still pending at subscription time and then firing `error`, the
after image already loaded. -/
theorem c8_error_path_witness :
    (¬ (({ src := "before.jpg", complete := false, naturalHeight := 0,
            futureEvent := some false } : Load.ImgElem).complete = true ∧
        ({ src := "before.jpg", complete := false, naturalHeight := 0,
            futureEvent := some false } : Load.ImgElem).naturalHeight ≠ 0)) ∧
    Load.init
      { src := "before.jpg", complete := false, naturalHeight := 0,
        futureEvent := some false }
      { src := "after.jpg", complete := true, naturalHeight := 300,
        futureEvent := none } =
      Load.InitResult.errorShown ("Failed to load image: " ++ "before.jpg") ∧
    Load.init
      { src := "before.jpg", complete := false, naturalHeight := 0,
        futureEvent := some false }
      { src := "after.jpg", complete := true, naturalHeight := 300,
        futureEvent := none } ≠ Load.InitResult.ready :=
  ⟨by simp,
    c8_error_path.1
      { src := "before.jpg", complete := false, naturalHeight := 0,
        futureEvent := some false }
      { src := "after.jpg", complete := true, naturalHeight := 300,
        futureEvent := none }
      (by simp) rfl⟩

/-! ## C9 — dataset attribute mirrors the rendered percentage -/

/-- C9 counterexample: starting at percentage 0 with target 0.05 (within
the 0.1 threshold), one V1 `animate` call eases to 0.02, writes 0.02 to
the data attribute, renders, then snaps to 0.05 and renders again without
touching the attribute: after that final snap render the attribute (0.02)
differs from the rendered percentage (0.05). -/
theorem c9_counterexample :
    (V1.animateStep
      { percentage := 0, targetPercentage := 1/20, isDragging := false,
        animationFrame := false, dataset := some 0 }).2.get? 1 =
      some { rendered := 1/20, datasetAtRender := some (1/50) } ∧
    ((1 : ℚ)/20) ≠ 1/50 := by
  constructor
  · norm_num [V1.animateStep, V1.eased, V1.EASE_FACTOR, V1.ANIMATION_THRESHOLD]
    rw [if_neg (by rw [abs_of_nonneg (by norm_num : (0:ℚ) ≤ 1/20)]; norm_num)]
    rfl
  · norm_num

/-- C9 amended: on every V1 animation step the data attribute is written
to the eased percentage before the first render, so every render of the
step either shows attribute = rendered value, or is the final snap render,
which shows the snapped target while the attribute still holds the eased
value — stale, but within `(1 - easeFactor) * threshold = 3/50` of the
rendered percentage.  Renders outside `animate` (initial render, resize)
never write the attribute at all. -/
theorem c9_dataset_mirror (s : V1.State) :
    (V1.animateStep s).2.head? =
      some { rendered := V1.eased s, datasetAtRender := some (V1.eased s) } ∧
    ∀ r ∈ (V1.animateStep s).2,
      r.datasetAtRender = some r.rendered ∨
      (r.rendered = s.targetPercentage ∧
        r.datasetAtRender = some (V1.eased s) ∧
        |r.rendered - V1.eased s| ≤ 3/50) := by
  constructor
  · simp only [V1.animateStep]
    split <;> rfl
  · intro r hr
    simp only [V1.animateStep] at hr
    by_cases h : |s.targetPercentage - s.percentage| > V1.ANIMATION_THRESHOLD
    · rw [if_pos h] at hr
      simp only [List.mem_singleton] at hr
      subst hr
      exact Or.inl rfl
    · rw [if_neg h] at hr
      simp only [List.mem_cons, List.mem_singleton, List.not_mem_nil, or_false] at hr
      rcases hr with hr | hr
      · subst hr
        exact Or.inl rfl
      · subst hr
        refine Or.inr ⟨rfl, rfl, ?_⟩
        have hd : s.targetPercentage - V1.eased s =
            (s.targetPercentage - s.percentage) * (3/5) := by
          unfold V1.eased V1.EASE_FACTOR
          ring
        rw [hd, abs_mul]
        rw [not_lt] at h
        unfold V1.ANIMATION_THRESHOLD at h
        have h35 : |(3/5 : ℚ)| = 3/5 := by norm_num
        rw [h35]
        nlinarith [abs_nonneg (s.targetPercentage - s.percentage)]

/-- C9 witness: the amended statement at the counterexample's input and
its snap render. -/
theorem c9_dataset_mirror_witness :
    ({ rendered := 1/20, datasetAtRender := some (1/50) } : V1.Render) ∈
      (V1.animateStep
        { percentage := 0, targetPercentage := 1/20, isDragging := false,
          animationFrame := false, dataset := some 0 }).2 ∧
    (({ rendered := 1/20, datasetAtRender := some (1/50) } : V1.Render).datasetAtRender
        = some ({ rendered := 1/20, datasetAtRender := some (1/50) } : V1.Render).rendered ∨
      (({ rendered := 1/20, datasetAtRender := some (1/50) } : V1.Render).rendered =
          (1/20 : ℚ) ∧
        ({ rendered := 1/20, datasetAtRender := some (1/50) } : V1.Render).datasetAtRender
          = some (V1.eased
              { percentage := 0, targetPercentage := 1/20, isDragging := false,
                animationFrame := false, dataset := some 0 }) ∧
        |({ rendered := 1/20, datasetAtRender := some (1/50) } : V1.Render).rendered -
            V1.eased
              { percentage := 0, targetPercentage := 1/20, isDragging := false,
                animationFrame := false, dataset := some 0 }| ≤ 3/50)) := by
  have hm : ({ rendered := 1/20, datasetAtRender := some (1/50) } : V1.Render) ∈
      (V1.animateStep
        { percentage := 0, targetPercentage := 1/20, isDragging := false,
          animationFrame := false, dataset := some 0 }).2 := by
    norm_num [V1.animateStep, V1.eased, V1.EASE_FACTOR, V1.ANIMATION_THRESHOLD]
    rw [if_neg (by rw [abs_of_nonneg (by norm_num : (0:ℚ) ≤ 1/20)]; norm_num)]
    simp
  exact ⟨hm, (c9_dataset_mirror _).2 _ hm⟩

/-! ## C1 — range invariant -/

/-- The clamp `Math.max(0, Math.min(100, x))` is at least 0. -/
theorem clamp_nonneg (x : ℚ) : 0 ≤ max 0 (min 100 x) :=
  le_max_left 0 _

/-- The clamp `Math.max(0, Math.min(100, x))` is at most 100. -/
theorem clamp_le_hundred (x : ℚ) : max 0 (min 100 x) ≤ 100 :=
  max_le (by norm_num) (min_le_left _ _)

/-- One easing step with factor in [0, 1] stays inside [0, 100] when both
endpoints are. -/
theorem ease_bounds {f p t : ℚ} (hf0 : 0 ≤ f) (hf1 : f ≤ 1)
    (hp0 : 0 ≤ p) (hp1 : p ≤ 100) (ht0 : 0 ≤ t) (ht1 : t ≤ 100) :
    0 ≤ p + (t - p) * f ∧ p + (t - p) * f ≤ 100 := by
  constructor <;> nlinarith

/-- V2 `animate` preserves the range invariant when the easing factor lies
in [0, 1]. -/
theorem V2.animateStep_inRange (o : V2.Options) (prm : Bool) (s : V2.State)
    (hf0 : 0 ≤ o.easeFactor) (hf1 : o.easeFactor ≤ 1) (h : InRange s) :
    InRange (V2.animateStep o prm s).1 := by
  obtain ⟨hp0, hp1, ht0, ht1⟩ := h
  have hb : 0 ≤ (if prm then s.targetPercentage
        else s.percentage + (s.targetPercentage - s.percentage) * o.easeFactor) ∧
      (if prm then s.targetPercentage
        else s.percentage + (s.targetPercentage - s.percentage) * o.easeFactor)
        ≤ 100 := by
    split
    · exact ⟨ht0, ht1⟩
    · exact ease_bounds hf0 hf1 hp0 hp1 ht0 ht1
  simp only [V2.animateStep]
  split
  · exact ⟨hb.1, hb.2, ht0, ht1⟩
  · exact ⟨ht0, ht1, ht0, ht1⟩

/-- V2 `handleMove` preserves the range invariant. -/
theorem V2.handleMove_inRange (o : V2.Options) (prm : Bool) (s : V2.State)
    (pt : PointerType) (x : ℚ) (r : Rect)
    (hf0 : 0 ≤ o.easeFactor) (hf1 : o.easeFactor ≤ 1) (h : InRange s) :
    InRange (V2.handleMove o prm s pt x r).1 := by
  obtain ⟨hp0, hp1, ht0, ht1⟩ := h
  simp only [V2.handleMove]
  split
  · exact ⟨hp0, hp1, ht0, ht1⟩
  · split
    · exact ⟨hp0, hp1, ht0, ht1⟩
    · split
      · exact ⟨hp0, hp1, ht0, ht1⟩
      · split
        · exact ⟨hp0, hp1, clamp_nonneg _, clamp_le_hundred _⟩
        · exact V2.animateStep_inRange o prm _ hf0 hf1
            ⟨hp0, hp1, clamp_nonneg _, clamp_le_hundred _⟩

/-- V2 `handleKeydown` preserves the range invariant when the easing
factor lies in [0, 1] and the keyboard step is nonnegative. -/
theorem V2.handleKeydown_inRange (o : V2.Options) (prm : Bool) (s : V2.State)
    (k : Key) (hf0 : 0 ≤ o.easeFactor) (hf1 : o.easeFactor ≤ 1)
    (hk : 0 ≤ o.keyboardStep) (h : InRange s) :
    InRange (V2.handleKeydown o prm s k).1 := by
  obtain ⟨hp0, hp1, ht0, ht1⟩ := h
  have hdown : 0 ≤ max 0 (s.targetPercentage - o.keyboardStep) ∧
      max 0 (s.targetPercentage - o.keyboardStep) ≤ 100 :=
    ⟨le_max_left _ _, max_le (by norm_num) (by linarith)⟩
  have hup : 0 ≤ min 100 (s.targetPercentage + o.keyboardStep) ∧
      min 100 (s.targetPercentage + o.keyboardStep) ≤ 100 :=
    ⟨le_min (by norm_num) (by linarith), min_le_left _ _⟩
  cases k <;> simp only [V2.handleKeydown] <;> try exact ⟨hp0, hp1, ht0, ht1⟩
  all_goals split
  case arrowLeft.isTrue => exact ⟨hp0, hp1, hdown.1, hdown.2⟩
  case arrowLeft.isFalse =>
    exact V2.animateStep_inRange o prm _ hf0 hf1 ⟨hp0, hp1, hdown.1, hdown.2⟩
  case arrowDown.isTrue => exact ⟨hp0, hp1, hdown.1, hdown.2⟩
  case arrowDown.isFalse =>
    exact V2.animateStep_inRange o prm _ hf0 hf1 ⟨hp0, hp1, hdown.1, hdown.2⟩
  case arrowRight.isTrue => exact ⟨hp0, hp1, hup.1, hup.2⟩
  case arrowRight.isFalse =>
    exact V2.animateStep_inRange o prm _ hf0 hf1 ⟨hp0, hp1, hup.1, hup.2⟩
  case arrowUp.isTrue => exact ⟨hp0, hp1, hup.1, hup.2⟩
  case arrowUp.isFalse =>
    exact V2.animateStep_inRange o prm _ hf0 hf1 ⟨hp0, hp1, hup.1, hup.2⟩
  case keyHome.isTrue => exact ⟨hp0, hp1, le_refl 0, by norm_num⟩
  case keyHome.isFalse =>
    exact V2.animateStep_inRange o prm _ hf0 hf1 ⟨hp0, hp1, le_refl 0, by norm_num⟩
  case keyEnd.isTrue => exact ⟨hp0, hp1, by norm_num, le_refl 100⟩
  case keyEnd.isFalse =>
    exact V2.animateStep_inRange o prm _ hf0 hf1 ⟨hp0, hp1, by norm_num, le_refl 100⟩

/-- Every single V2 event dispatch preserves the range invariant. -/
theorem V2.stepEv_inRange (o : V2.Options) (prm : Bool) (s : V2.State)
    (e : V2.Event) (hf0 : 0 ≤ o.easeFactor) (hf1 : o.easeFactor ≤ 1)
    (hk : 0 ≤ o.keyboardStep) (h : InRange s) :
    InRange (V2.stepEv o prm s e).1 := by
  obtain ⟨hp0, hp1, ht0, ht1⟩ := h
  cases e with
  | pointerEnter => exact ⟨hp0, hp1, ht0, ht1⟩
  | pointerLeave => exact ⟨hp0, hp1, ht0, ht1⟩
  | pointerDown pt x r =>
    exact V2.handleMove_inRange o prm _ pt x r hf0 hf1 ⟨hp0, hp1, ht0, ht1⟩
  | pointerMove pt x r =>
    exact V2.handleMove_inRange o prm _ pt x r hf0 hf1 ⟨hp0, hp1, ht0, ht1⟩
  | pointerUp =>
    simp only [V2.stepEv, V2.handleEnd]
    split
    · exact ⟨hp0, hp1, ht0, ht1⟩
    · exact ⟨hp0, hp1, ht0, ht1⟩
  | pointerCancel =>
    simp only [V2.stepEv, V2.handleEnd]
    split
    · exact ⟨hp0, hp1, ht0, ht1⟩
    · exact ⟨hp0, hp1, ht0, ht1⟩
  | keydown k =>
    exact V2.handleKeydown_inRange o prm s k hf0 hf1 hk ⟨hp0, hp1, ht0, ht1⟩
  | frame =>
    simp only [V2.stepEv]
    split
    · exact V2.animateStep_inRange o prm s hf0 hf1 ⟨hp0, hp1, ht0, ht1⟩
    · exact ⟨hp0, hp1, ht0, ht1⟩
  | resize => exact ⟨hp0, hp1, ht0, ht1⟩

/-- Running any event list preserves the range invariant. -/
theorem V2.run_inRange (o : V2.Options) (prm : Bool)
    (hf0 : 0 ≤ o.easeFactor) (hf1 : o.easeFactor ≤ 1)
    (hk : 0 ≤ o.keyboardStep) :
    ∀ (events : List V2.Event) (s : V2.State), InRange s →
      InRange (V2.run o prm s events) := by
  intro events
  induction events with
  | nil => exact fun s h => h
  | cons e l ih =>
    intro s h
    exact ih _ (V2.stepEv_inRange o prm s e hf0 hf1 hk h)

/-- C1 counterexample: the constructor does not clamp the pre-set data
attribute; with `data-percentage="150"` the instance starts (empty event
sequence) with `percentage = targetPercentage = 150`, outside [0, 100]. -/
theorem c1_counterexample :
    ¬ ((V2.run V2.DEFAULT_OPTIONS false
        (V2.mkState V2.DEFAULT_OPTIONS (some 150)) []).percentage ≤ 100) := by
  norm_num [V2.run, V2.mkState]

/-- C1 amended: provided the construction-time value (the parsed data
attribute when present, else the configured initial percentage) lies in
[0, 100], and the configuration is inside its documented ranges (easing
factor in [0, 1], keyboard step nonnegative), both `percentage` and
`targetPercentage` lie in [0, 100] after every sequence of pointer, touch,
and keyboard events.  The constructor itself performs no clamping, so the
bound on the initial value cannot be dropped. -/
theorem c1_range_invariant (o : V2.Options) (prm : Bool) (d : Option ℚ)
    (events : List V2.Event)
    (hd : ∀ v, d = some v → 0 ≤ v ∧ v ≤ 100)
    (hi0 : 0 ≤ o.initialPercentage) (hi1 : o.initialPercentage ≤ 100)
    (hf0 : 0 ≤ o.easeFactor) (hf1 : o.easeFactor ≤ 1)
    (hk : 0 ≤ o.keyboardStep) :
    InRange (V2.run o prm (V2.mkState o d) events) := by
  apply V2.run_inRange o prm hf0 hf1 hk
  cases d with
  | none => exact ⟨hi0, hi1, hi0, hi1⟩
  | some v =>
    obtain ⟨h0, h1⟩ := hd v rfl
    exact ⟨h0, h1, h0, h1⟩

/-- C1 witness: the amended invariant at a concrete input — default
options, data attribute 50, a right-arrow press followed by one animation
frame. -/
theorem c1_range_invariant_witness :
    InRange (V2.run V2.DEFAULT_OPTIONS false
      (V2.mkState V2.DEFAULT_OPTIONS (some 50))
      [V2.Event.keydown Key.arrowRight, V2.Event.frame]) :=
  c1_range_invariant V2.DEFAULT_OPTIONS false (some 50)
    [V2.Event.keydown Key.arrowRight, V2.Event.frame]
    (fun v h => by cases h; norm_num)
    (by norm_num [V2.DEFAULT_OPTIONS]) (by norm_num [V2.DEFAULT_OPTIONS])
    (by norm_num [V2.DEFAULT_OPTIONS]) (by norm_num [V2.DEFAULT_OPTIONS])
    (by norm_num [V2.DEFAULT_OPTIONS])

/-! ## C2 — animation convergence -/

/-- Iterating V3 `animate` never changes the target. -/
theorem V3.iterate_target (o : V2.Options) (s : V3.State) (n : ℕ) :
    ((V3.animateStep o false)^[n] s).targetPercentage = s.targetPercentage := by
  induction n with
  | zero => rfl
  | succ n ih => rw [Function.iterate_succ_apply', V3.animateStep_target_fixed, ih]

/-- The percentage after one non-reduced-motion V3 `animate` call: eased
when the pre-step distance exceeds the threshold, snapped to the target
otherwise. -/
theorem V3.animateStep_percentage (o : V2.Options) (s : V3.State) :
    (V3.animateStep o false s).percentage =
      if |s.targetPercentage - s.percentage| > o.threshold then
        s.percentage + (s.targetPercentage - s.percentage) * o.easeFactor
      else s.targetPercentage := by
  simp only [V3.animateStep]
  split <;> rfl

/-- When the pre-step distance is within the threshold, V3 `animate` snaps
exactly to the target and clears the animation handle. -/
theorem V3.animateStep_snap (o : V2.Options) (s : V3.State)
    (hc : ¬ (|s.targetPercentage - s.percentage| > o.threshold)) :
    (V3.animateStep o false s).percentage = s.targetPercentage ∧
    (V3.animateStep o false s).animationFrame = false := by
  simp only [V3.animateStep]
  rw [if_neg hc]
  exact ⟨rfl, rfl⟩

/-- A state already at its target is left there by V3 `animate` (with the
handle cleared), for any nonnegative threshold. -/
theorem V3.animateStep_at_target (o : V2.Options) (s : V3.State)
    (hth : 0 ≤ o.threshold) (h : s.percentage = s.targetPercentage) :
    (V3.animateStep o false s).percentage = s.targetPercentage ∧
    (V3.animateStep o false s).animationFrame = false := by
  apply V3.animateStep_snap
  rw [h, sub_self, abs_zero]
  exact not_lt.mpr hth

/-- After `n` V3 `animate` steps the instance is either already exactly at
the target, or its residual distance is the initial distance scaled by
`(1 - easeFactor) ^ n`. -/
theorem V3.percentage_progress (o : V2.Options) (s : V3.State)
    (hth : 0 ≤ o.threshold) (n : ℕ) :
    ((V3.animateStep o false)^[n] s).percentage = s.targetPercentage ∨
    s.targetPercentage - ((V3.animateStep o false)^[n] s).percentage =
      (s.targetPercentage - s.percentage) * (1 - o.easeFactor) ^ n := by
  induction n with
  | zero => right; simp
  | succ n ih =>
    rcases ih with h | h
    · left
      rw [Function.iterate_succ_apply']
      have ha := V3.animateStep_at_target o ((V3.animateStep o false)^[n] s) hth
        (by rw [h, V3.iterate_target])
      rw [ha.1, V3.iterate_target]
    · by_cases hc : |s.targetPercentage -
          ((V3.animateStep o false)^[n] s).percentage| > o.threshold
      · right
        rw [Function.iterate_succ_apply']
        have hc' : |((V3.animateStep o false)^[n] s).targetPercentage -
            ((V3.animateStep o false)^[n] s).percentage| > o.threshold := by
          rwa [V3.iterate_target]
        rw [V3.animateStep_percentage, if_pos hc', V3.iterate_target]
        rw [pow_succ]
        linear_combination (1 - o.easeFactor) * h
      · left
        rw [Function.iterate_succ_apply']
        have hc' : ¬ (|((V3.animateStep o false)^[n] s).targetPercentage -
            ((V3.animateStep o false)^[n] s).percentage| > o.threshold) := by
          rwa [V3.iterate_target]
        rw [(V3.animateStep_snap o _ hc').1, V3.iterate_target]

/-- C2: for every starting percentage and target, easing factor in (0, 1)
and positive threshold, finitely many V3 `animate` steps bring the
percentage exactly to the target (within the threshold, as the snap
implies), with the animation handle cleared; every later step with the
same target leaves the percentage unchanged at the target. -/
theorem c2_convergence (o : V2.Options) (s : V3.State)
    (hf0 : 0 < o.easeFactor) (hf1 : o.easeFactor < 1) (hth : 0 < o.threshold) :
    ∃ n : ℕ,
      ((V3.animateStep o false)^[n] s).percentage = s.targetPercentage ∧
      ((V3.animateStep o false)^[n] s).animationFrame = false ∧
      |((V3.animateStep o false)^[n] s).percentage - s.targetPercentage|
        ≤ o.threshold ∧
      ∀ m : ℕ, n ≤ m →
        ((V3.animateStep o false)^[m] s).percentage = s.targetPercentage := by
  set F := V3.animateStep o false with hF
  set D := |s.targetPercentage - s.percentage| with hD
  have hr0 : (0 : ℚ) < 1 - o.easeFactor := by linarith
  have hr1 : 1 - o.easeFactor < 1 := by linarith
  have hD0 : 0 ≤ D := abs_nonneg _
  have hD1 : (0 : ℚ) < D + 1 := by linarith
  obtain ⟨n, hn⟩ :=
    exists_pow_lt_of_lt_one (div_pos hth hD1) hr1
  have hgeom : D * (1 - o.easeFactor) ^ n < o.threshold := by
    have h1 : (1 - o.easeFactor) ^ n * (D + 1) < o.threshold :=
      (lt_div_iff₀ hD1).mp hn
    have h2 : (0 : ℚ) ≤ (1 - o.easeFactor) ^ n := pow_nonneg hr0.le n
    nlinarith
  have hsnap : (F^[n + 1] s).percentage = s.targetPercentage ∧
      (F^[n + 1] s).animationFrame = false := by
    rcases V3.percentage_progress o s hth.le n with h | h
    · have ha := V3.animateStep_at_target o (F^[n] s) hth.le
        (by rw [h, hF, V3.iterate_target])
      rw [Function.iterate_succ_apply']
      rw [hF] at ha ⊢
      rw [ha.1, V3.iterate_target]
      exact ⟨rfl, ha.2⟩
    · have habs : |s.targetPercentage - (F^[n] s).percentage| =
          D * (1 - o.easeFactor) ^ n := by
        rw [h, abs_mul, abs_pow, abs_of_nonneg hr0.le, hD]
      have hc : ¬ (|(F^[n] s).targetPercentage - (F^[n] s).percentage| >
          o.threshold) := by
        rw [hF, V3.iterate_target]
        rw [← hF, habs]
        exact not_lt.mpr hgeom.le
      have hs := V3.animateStep_snap o (F^[n] s) hc
      rw [Function.iterate_succ_apply']
      rw [hF] at hs ⊢
      rw [hs.1, V3.iterate_target]
      exact ⟨rfl, hs.2⟩
  refine ⟨n + 1, hsnap.1, hsnap.2, ?_, ?_⟩
  · rw [hsnap.1, sub_self, abs_zero]
    exact hth.le
  · have persist : ∀ j : ℕ, (F^[n + 1 + j] s).percentage = s.targetPercentage := by
      intro j
      induction j with
      | zero => exact hsnap.1
      | succ j ih =>
        have ha := V3.animateStep_at_target o (F^[n + 1 + j] s) hth.le
          (by rw [ih, hF, V3.iterate_target])
        have hstep : n + 1 + (j + 1) = (n + 1 + j) + 1 := by ring
        rw [hstep, Function.iterate_succ_apply']
        rw [hF] at ha ⊢
        rw [ha.1, V3.iterate_target]
    intro m hm
    have := persist (m - (n + 1))
    rwa [Nat.add_sub_cancel' hm] at this

/-- C2 witness: convergence at a concrete input — default options,
starting percentage 0, target 100. -/
theorem c2_convergence_witness :
    (0 : ℚ) < V2.DEFAULT_OPTIONS.easeFactor ∧
    V2.DEFAULT_OPTIONS.easeFactor < 1 ∧
    (0 : ℚ) < V2.DEFAULT_OPTIONS.threshold ∧
    ∃ n : ℕ,
      ((V3.animateStep V2.DEFAULT_OPTIONS false)^[n] ({ percentage := 0, targetPercentage := 100, animationFrame := true, dataset := none } : V3.State)).percentage = ({ percentage := 0, targetPercentage := 100, animationFrame := true, dataset := none } : V3.State).targetPercentage ∧
      ((V3.animateStep V2.DEFAULT_OPTIONS false)^[n] ({ percentage := 0, targetPercentage := 100, animationFrame := true, dataset := none } : V3.State)).animationFrame = false ∧
      |((V3.animateStep V2.DEFAULT_OPTIONS false)^[n] ({ percentage := 0, targetPercentage := 100, animationFrame := true, dataset := none } : V3.State)).percentage - ({ percentage := 0, targetPercentage := 100, animationFrame := true, dataset := none } : V3.State).targetPercentage| ≤ V2.DEFAULT_OPTIONS.threshold ∧
      ∀ m : ℕ, n ≤ m →
        ((V3.animateStep V2.DEFAULT_OPTIONS false)^[m] ({ percentage := 0, targetPercentage := 100, animationFrame := true, dataset := none } : V3.State)).percentage = ({ percentage := 0, targetPercentage := 100, animationFrame := true, dataset := none } : V3.State).targetPercentage :=
  ⟨by norm_num [V2.DEFAULT_OPTIONS], by norm_num [V2.DEFAULT_OPTIONS],
    by norm_num [V2.DEFAULT_OPTIONS],
    c2_convergence V2.DEFAULT_OPTIONS
      { percentage := 0, targetPercentage := 100, animationFrame := true, dataset := none }
      (by norm_num [V2.DEFAULT_OPTIONS]) (by norm_num [V2.DEFAULT_OPTIONS])
      (by norm_num [V2.DEFAULT_OPTIONS])⟩

end StackSlider
